import Mathlib

/-!
Verification development for the `youtube-unofficial` client library.

The repository is a Python client that scrapes embedded JSON state out of
server-rendered HTML pages and drives a continuation-token pagination
protocol.  This file gives a shallow embedding of the page-state extraction
and pagination engine:

* Python JSON-decoded values are modelled by the inductive `JVal`;
  dictionary subscription (which raises `KeyError`), sequence subscription
  (which raises `IndexError`) and iteration are modelled by `getKey`,
  `getIdx` and `iterElems` returning `Except PyErr _`, where the `PyErr`
  constructor records which Python exception class the operation raises.
* The generator functions of `youtube_unofficial/__init__.py`
  (`get_history_info`, `get_playlist_info`, `live_chat_history`,
  `_comment_community_history`) are modelled as pure functions from their
  page inputs to a `GenResult`: the list of entries the generator yields
  before it stops, the list of network events it performs (page loads and
  AJAX fetches, in order), and an optional terminal exception.  Network
  collaborators (`_download_page`, `_download_page_soup`) are modelled by
  supplying the already-decoded responses as inputs: the initial page's
  extracted data and config are parameters, and the successive AJAX
  responses are a list that each fetch consumes from in order.  Entry
  mappers that live in modules not present in the sources
  (`make_live_chat_history_entry`, `make_comment_history_entry`) are
  abstract function parameters.
* `find_ytcfg` and `ytcfg_headers` from `youtube_unofficial/ytcfg.py` are
  modelled executably, including the `re.sub(r'.+ytcfg.set\(\x7b', '\x7b', ...)`
  substitution (specialised to that fixed pattern, with Python's leftmost
  plus greedy semantics) and `json.JSONDecoder().raw_decode` (a recursive
  descent JSON reader that parses one value and ignores trailing text;
  non-integral numerals are kept as their lexemes, since the code never
  computes with them).
-/

/-- A Python JSON-decoded value: `None`, `bool`, `int`, `float` (kept as its
source lexeme, never computed with), `str`, `list` and `dict` (association
list in insertion order, string keys as in JSON). -/
inductive JVal where
  | null : JVal
  | bool : Bool → JVal
  | int : Int → JVal
  | flt : String → JVal
  | str : String → JVal
  | arr : List JVal → JVal
  | obj : List (String × JVal) → JVal

/-- The Python exceptions (and modelling artefacts) that the embedded code
can terminate with.  `starvedFetch` marks a fetch requested after the
supplied response list was exhausted and `fuelOut` marks recursion-fuel
exhaustion; neither occurs in any theorem below. -/
inductive PyErr where
  | keyError
  | indexError
  | typeError
  | pathNotFound
  | jsonDecodeError
  | assertionError
  | authenticationError
  | unexpectedError
  | starvedFetch
  | fuelOut
deriving DecidableEq

/-- Python `d[k]` for a string key: a `dict` yields the stored value or
raises `KeyError`; subscripting any non-mapping with a string raises
`TypeError`. -/
def getKey : JVal → String → Except PyErr JVal
  | .obj kvs, k =>
    match kvs.lookup k with
    | some v => .ok v
    | none => .error .keyError
  | _, _ => .error .typeError

/-- Python `s[i]` for a non-negative integer index: a `list` yields the
element or raises `IndexError`; a `dict` subscripted with an integer key it
does not hold raises `KeyError` (modelled keys are strings, so it always
misses); a `str` yields the one-character string; other values raise
`TypeError`. -/
def getIdx : JVal → Nat → Except PyErr JVal
  | .arr xs, i =>
    match xs.get? i with
    | some v => .ok v
    | none => .error .indexError
  | .obj _, _ => .error .keyError
  | .str s, i =>
    match s.data.get? i with
    | some c => .ok (.str (String.mk [c]))
    | none => .error .indexError
  | _, _ => .error .typeError

/-- Python iteration (`for x in v`, `yield from v`): lists yield elements,
dicts yield their keys, strings yield one-character strings, anything else
raises `TypeError`. -/
def iterElems : JVal → Except PyErr (List JVal)
  | .arr xs => .ok xs
  | .obj kvs => .ok (kvs.map fun kv => JVal.str kv.fst)
  | .str s => .ok (s.data.map fun c => JVal.str (String.mk [c]))
  | _ => .error .typeError

/-- Python truthiness of a JSON-decoded value.  (A `float` is modelled as
always truthy; the embedded code never branches on a float.) -/
def truthy : JVal → Bool
  | .null => false
  | .bool b => b
  | .int n => !(n == 0)
  | .flt _ => true
  | .str s => !(s == "")
  | .arr xs => !xs.isEmpty
  | .obj kvs => !kvs.isEmpty

/-- Python `k in d` for the dict values the embedded code tests membership
on (the code only ever applies it to decoded JSON objects). -/
def hasKeyB : JVal → String → Bool
  | .obj kvs, k => (kvs.lookup k).isSome
  | _, _ => false

/-- Read a path segment as a numeric index, when it is all digits. -/
def segToNat? (s : String) : Option Nat :=
  match s.data with
  | [] => none
  | ds =>
    if ds.all Char.isDigit then
      some (ds.foldl (fun n c => n * 10 + (c.toNat - '0'.toNat)) 0)
    else none

/-- Modelled from the spec: `util.path` (the Path Resolver, §4.1) is not
among the provided sources.  Per the spec it follows a dot-separated path,
looking mappings up by key and sequences up by numeric index, and fails
with a NotFound condition when a segment is missing or out of range. -/
def atPathGo : List String → JVal → Except PyErr JVal
  | [], v => .ok v
  | seg :: rest, v =>
    match v with
    | .obj kvs =>
      match kvs.lookup seg with
      | some w => atPathGo rest w
      | none => .error .pathNotFound
    | .arr xs =>
      match segToNat? seg with
      | some i =>
        match xs.get? i with
        | some w => atPathGo rest w
        | none => .error .pathNotFound
      | none => .error .pathNotFound
    | _ => .error .pathNotFound

/-- Split a dotted path into its segments (the accumulator holds the
current segment's characters in reverse). -/
def splitDotsAux : List Char → List Char → List String
  | [], acc => [String.mk acc.reverse]
  | c :: rest, acc =>
    if c == '.' then String.mk acc.reverse :: splitDotsAux rest []
    else splitDotsAux rest (c :: acc)

/-- Modelled from the spec: entry point of the Path Resolver (§4.1), taking
a dot-separated sequence of keys and indices. -/
def at_path (p : String) (root : JVal) : Except PyErr JVal :=
  atPathGo (splitDotsAux p.data []) root

/-! ## Constants (`youtube_unofficial/constants.py`) -/

def BROWSE_AJAX_URL : String := "https://www.youtube.com/browse_ajax"

def COMMENT_HISTORY_URL : String :=
  "https://www.youtube.com/feed/history/comment_history"

def COMMUNITY_HISTORY_URL : String :=
  "https://www.youtube.com/feed/history/community_history"

def HISTORY_URL : String := "https://www.youtube.com/feed/history"

def LIVE_CHAT_HISTORY_URL : String :=
  "https://www.youtube.com/feed/history/live_chat_history"

def SERVICE_AJAX_URL : String := "https://www.youtube.com/service_ajax"

def WATCH_LATER_URL : String := "https://www.youtube.com/playlist?list=WL"

/-! ## The config blob and header builder (`youtube_unofficial/ytcfg.py`) -/

/-- The `YtcfgDict` config blob, restricted to the fields the embedded code
reads.  Field types follow their use in the source: fields passed through
`str(...)` are numeric, the rest are strings. -/
structure YtcfgDict where
  INNERTUBE_CONTEXT_CLIENT_NAME : Int
  INNERTUBE_CONTEXT_CLIENT_VERSION : String
  ID_TOKEN : String
  PAGE_CL : Int
  VARIANTS_CHECKSUM : String
  XSRF_TOKEN : String
  EVENT_ID : String

/-- `ytcfg_headers` from `ytcfg.py`: the standard header set, as an
association list in the source's construction order. -/
def ytcfg_headers (ytcfg : YtcfgDict) : List (String × String) :=
  [("x-spf-previous", WATCH_LATER_URL),
   ("x-spf-referer", WATCH_LATER_URL),
   ("x-youtube-client-name", toString ytcfg.INNERTUBE_CONTEXT_CLIENT_NAME),
   ("x-youtube-client-version", ytcfg.INNERTUBE_CONTEXT_CLIENT_VERSION),
   ("x-youtube-identity-token", ytcfg.ID_TOKEN),
   ("x-youtube-page-cl", toString ytcfg.PAGE_CL),
   ("x-youtube-utc-offset", "-240"),
   ("x-youtube-variants-checksum", ytcfg.VARIANTS_CHECKSUM)]

/-! ## String machinery for `find_ytcfg` -/

/-- Whether the first list is an initial segment of the second. -/
def listIsPre : List Char → List Char → Bool
  | [], _ => true
  | _ :: _, [] => false
  | a :: as, b :: bs => a == b && listIsPre as bs

/-- Python `needle in hay` on strings, over character lists. -/
def containsSub (needle : List Char) : List Char → Bool
  | [] => listIsPre needle []
  | c :: rest => listIsPre needle (c :: rest) || containsSub needle rest

/-- Drop a literal from the front of a character list, or fail. -/
def dropLit : List Char → List Char → Option (List Char)
  | [], cs => some cs
  | _ :: _, [] => none
  | a :: as, c :: cs => if a == c then dropLit as cs else none

/-- Python whitespace for `str.strip`. -/
def pyWs (c : Char) : Bool :=
  c == ' ' || c == '\t' || c == '\n' || c == '\r' || c == '\x0b' || c == '\x0c'

/-- Python `str.strip()`: remove leading and trailing whitespace. -/
def pyStrip (s : String) : String :=
  String.mk (((s.data.dropWhile pyWs).reverse.dropWhile pyWs).reverse)

/-- The tail of the regex `.+ytcfg.set\(\x7b`: the literal `ytcfg`, one
arbitrary non-newline character, then the literal `set(\x7b`.  Returns the
remainder after the matched tail. -/
def matchTail (cs : List Char) : Option (List Char) :=
  match dropLit "ytcfg".data cs with
  | none => none
  | some cs1 =>
    match cs1 with
    | [] => none
    | c :: cs2 =>
      if c == '\n' then none
      else dropLit "set(\x7b".data cs2

/-- Greedy `.*` followed by the tail pattern: consume as many non-newline
characters as possible such that the tail still matches at the boundary
(Python's greedy backtracking). -/
def dotStarTail : List Char → Option (List Char)
  | [] => matchTail []
  | c :: rest =>
    if c == '\n' then matchTail (c :: rest)
    else
      match dotStarTail rest with
      | some r => some r
      | none => matchTail (c :: rest)

/-- The full pattern `.+ytcfg.set\(\x7b` anchored at the front: at least one
non-newline character, then greedy continuation. -/
def dotPlusTail : List Char → Option (List Char)
  | [] => none
  | c :: rest => if c == '\n' then none else dotStarTail rest

/-- `re.sub` scan: at each position try the leftmost match of
`.+ytcfg.set\(\x7b` (greedy), replace it with `\x7b`, and continue after it;
otherwise keep the character and move on.  The fuel is one more than the
input length, which is always enough since every match consumes at least
one character. -/
def subScanAux : Nat → List Char → List Char
  | 0, cs => cs
  | _ + 1, [] => []
  | fuel + 1, c :: rest =>
    match dotPlusTail (c :: rest) with
    | some after => '\x7b' :: subScanAux fuel after
    | none => c :: subScanAux fuel rest

/-- `re.sub(r'.+ytcfg.set\(\x7b', '\x7b', s)` from `find_ytcfg`. -/
def pySubYtcfg (s : String) : String :=
  String.mk (subScanAux (s.data.length + 1) s.data)

/-! ## JSON reading (`json.JSONDecoder().raw_decode`) -/

/-- Skip the whitespace JSON allows between tokens. -/
def jsonSkipWs : List Char → List Char
  | c :: rest =>
    if c == ' ' || c == '\t' || c == '\n' || c == '\r' then jsonSkipWs rest
    else c :: rest
  | [] => []

/-- Parse one or more decimal digits. -/
def jsonDigits : List Char → Option (List Char × List Char)
  | c :: rest =>
    if c.isDigit then
      match jsonDigits rest with
      | some (ds, r) => some (c :: ds, r)
      | none => some ([c], rest)
    else none
  | [] => none

/-- The integer part of a JSON number: `0` or a nonzero digit followed by
digits. -/
def jsonIntPart : List Char → Option (List Char × List Char)
  | c :: rest =>
    if c == '0' then some ([c], rest)
    else if c.isDigit then
      match jsonDigits rest with
      | some (ds, r) => some (c :: ds, r)
      | none => some ([c], rest)
    else none
  | [] => none

/-- The fraction part `.digits`, if present. -/
def jsonFracPart : List Char → Option (List Char × List Char)
  | '.' :: rest =>
    match jsonDigits rest with
    | some (ds, r) => some ('.' :: ds, r)
    | none => none
  | _ => none

/-- The exponent part `[eE][+-]?digits`, if present. -/
def jsonExpPart : List Char → Option (List Char × List Char)
  | c :: rest =>
    if c == 'e' || c == 'E' then
      match rest with
      | s :: rest2 =>
        if s == '+' || s == '-' then
          match jsonDigits rest2 with
          | some (ds, r) => some (c :: s :: ds, r)
          | none => none
        else
          match jsonDigits rest with
          | some (ds, r) => some (c :: ds, r)
          | none => none
      | [] => none
    else none
  | [] => none

/-- Decimal digits to a natural number. -/
def digitsToNat : List Char → Nat
  | [] => 0
  | ds => ds.foldl (fun n c => n * 10 + (c.toNat - '0'.toNat)) 0

/-- Parse a JSON number (after an optional leading minus handled by the
caller).  Integral numerals produce `JVal.int`; numerals with a fraction or
exponent keep their lexeme as `JVal.flt`. -/
def jsonNumberFrom (neg : Bool) (cs : List Char) : Option (JVal × List Char) :=
  match jsonIntPart cs with
  | none => none
  | some (ip, r1) =>
    let frac := jsonFracPart r1
    match frac with
    | some (fp, r2) =>
      match jsonExpPart r2 with
      | some (ep, r3) =>
        some (.flt (String.mk ((if neg then ['-'] else []) ++ ip ++ fp ++ ep)), r3)
      | none => some (.flt (String.mk ((if neg then ['-'] else []) ++ ip ++ fp)), r2)
    | none =>
      match jsonExpPart r1 with
      | some (ep, r3) =>
        some (.flt (String.mk ((if neg then ['-'] else []) ++ ip ++ ep)), r3)
      | none =>
        let n : Int := Int.ofNat (digitsToNat ip)
        some (.int (if neg then -n else n), r1)

/-- Hexadecimal digit value, by code point: `0`-`9` are 48-57, `A`-`F` are
65-70, `a`-`f` are 97-102. -/
def hexVal (c : Char) : Option Nat :=
  let n := c.toNat
  if 48 ≤ n && n ≤ 57 then some (n - 48)
  else if 97 ≤ n && n ≤ 102 then some (n - 87)
  else if 65 ≤ n && n ≤ 70 then some (n - 55)
  else none

/-- Parse the body of a JSON string after the opening quote, handling the
escape sequences of strict-mode `json` and rejecting raw control
characters. -/
def jsonStringBody : Nat → List Char → List Char → Option (String × List Char)
  | 0, _, _ => none
  | _ + 1, acc, '"' :: rest => some (String.mk acc.reverse, rest)
  | fuel + 1, acc, '\\' :: e :: rest =>
    match e with
    | '"' => jsonStringBody fuel ('"' :: acc) rest
    | '\\' => jsonStringBody fuel ('\\' :: acc) rest
    | '/' => jsonStringBody fuel ('/' :: acc) rest
    | 'b' => jsonStringBody fuel ('\x08' :: acc) rest
    | 'f' => jsonStringBody fuel ('\x0c' :: acc) rest
    | 'n' => jsonStringBody fuel ('\n' :: acc) rest
    | 'r' => jsonStringBody fuel ('\r' :: acc) rest
    | 't' => jsonStringBody fuel ('\t' :: acc) rest
    | 'u' =>
      match rest with
      | h1 :: h2 :: h3 :: h4 :: rest2 =>
        match hexVal h1, hexVal h2, hexVal h3, hexVal h4 with
        | some a, some b, some c, some d =>
          jsonStringBody fuel (Char.ofNat (((a * 16 + b) * 16 + c) * 16 + d) :: acc) rest2
        | _, _, _, _ => none
      | _ => none
    | _ => none
  | fuel + 1, acc, c :: rest =>
    if c.toNat < 32 then none else jsonStringBody fuel (c :: acc) rest
  | _, _, [] => none

mutual

/-- Parse one JSON value anchored at the start of the input (no leading
whitespace, as in `raw_decode`), returning the value and the remaining
(ignored) text. -/
def jsonValue : Nat → List Char → Option (JVal × List Char)
  | 0, _ => none
  | fuel + 1, cs =>
    match cs with
    | '"' :: rest => (jsonStringBody (rest.length + 1) [] rest).map fun p => (.str p.1, p.2)
    | '\x7b' :: rest => jsonMembers fuel (jsonSkipWs rest) true []
    | '[' :: rest => jsonItems fuel (jsonSkipWs rest) true []
    | 't' :: rest => (dropLit "rue".data rest).map fun r => (.bool true, r)
    | 'f' :: rest => (dropLit "alse".data rest).map fun r => (.bool false, r)
    | 'n' :: rest => (dropLit "ull".data rest).map fun r => (.null, r)
    | 'N' :: rest => (dropLit "aN".data rest).map fun r => (.flt "NaN", r)
    | 'I' :: rest => (dropLit "nfinity".data rest).map fun r => (.flt "Infinity", r)
    | '-' :: 'I' :: rest => (dropLit "nfinity".data rest).map fun r => (.flt "-Infinity", r)
    | '-' :: rest => jsonNumberFrom true rest
    | c :: _ => if c.isDigit then jsonNumberFrom false cs else none
    | [] => none

/-- Parse the members of a JSON object after the opening brace (whitespace
already skipped); `first` is true before any member has been read. -/
def jsonMembers : Nat → List Char → Bool → List (String × JVal) →
    Option (JVal × List Char)
  | 0, _, _, _ => none
  | fuel + 1, cs, first, acc =>
    match cs with
    | '\x7d' :: rest => if first then some (.obj acc.reverse, rest) else none
    | '"' :: rest =>
      match jsonStringBody (rest.length + 1) [] rest with
      | none => none
      | some (k, r1) =>
        match jsonSkipWs r1 with
        | ':' :: r2 =>
          match jsonValue fuel (jsonSkipWs r2) with
          | none => none
          | some (v, r3) =>
            match jsonSkipWs r3 with
            | ',' :: r4 => jsonMembersMore fuel (jsonSkipWs r4) ((k, v) :: acc)
            | '\x7d' :: r4 => some (.obj ((k, v) :: acc).reverse, r4)
            | _ => none
        | _ => none
    | _ => none

/-- After a comma inside an object a member must follow (no trailing
comma). -/
def jsonMembersMore : Nat → List Char → List (String × JVal) →
    Option (JVal × List Char)
  | 0, _, _ => none
  | fuel + 1, cs, acc =>
    match cs with
    | '"' :: _ => jsonMembers fuel cs false acc
    | _ => none

/-- Parse the items of a JSON array after the opening bracket (whitespace
already skipped); `first` is true before any item has been read. -/
def jsonItems : Nat → List Char → Bool → List JVal → Option (JVal × List Char)
  | 0, _, _, _ => none
  | fuel + 1, cs, first, acc =>
    match cs with
    | ']' :: rest => if first then some (.arr acc.reverse, rest) else none
    | _ =>
      match jsonValue fuel cs with
      | none => none
      | some (v, r1) =>
        match jsonSkipWs r1 with
        | ',' :: r2 => jsonItems fuel (jsonSkipWs r2) false (v :: acc)
        | ']' :: r2 => some (.arr (v :: acc).reverse, r2)
        | _ => none

end

/-- `json.JSONDecoder().raw_decode(s)`: parse one JSON value starting at
index 0 (leading whitespace is an error) and ignore trailing text; `none`
models a raised `json.JSONDecodeError`. -/
def rawDecode (s : String) : Option (JVal × List Char) :=
  jsonValue (s.data.length + 1) s.data

/-! ## `find_ytcfg` (`youtube_unofficial/ytcfg.py`) -/

/-- The failure conditions of `find_ytcfg`: `configNotFound` is the
`IndexError` raised by `[0]` on the empty candidate list, `malformedConfig`
is the `json.JSONDecodeError` raised by `raw_decode`. -/
inductive FindErr where
  | configNotFound
  | malformedConfig
deriving DecidableEq

/-- The signature substring `find_ytcfg` filters script texts by. -/
def YTCFG_SIGNATURE : String := "\"INNERTUBE_CONTEXT_CLIENT_VERSION\":"

/-- Whether a script element's text contains the config signature. -/
def hasSignature (s : String) : Bool :=
  containsSub YTCFG_SIGNATURE.data s.data

/-- `find_ytcfg` from `ytcfg.py`.  The parsed HTML document is modelled by
the list of its script elements' texts in document order (the
`soup.select('script')` collaborator).  The source filters the scripts by
the signature substring, takes the first candidate, strips it, rewrites
`.+ytcfg.set\(\x7b` to `\x7b` and raw-decodes the result. -/
def find_ytcfg (scripts : List String) : Except FindErr JVal :=
  match scripts.filter hasSignature with
  | [] => .error .configNotFound
  | t :: _ =>
    match rawDecode (pySubYtcfg (pyStrip t)) with
    | some (v, _) => .ok v
    | none => .error .malformedConfig

/-! ## The authorization header (`YouTube._authorization_sapisidhash_header`) -/

/-- A cookie of the session's cookie jar. -/
structure Cookie where
  name : String
  value : String
deriving DecidableEq

/-- The cookie scan of `_authorization_sapisidhash_header`: iterate the jar
in order and take the first cookie named `SAPISID` or
`__Secure-3PAPISID`. -/
def findSapisid : List Cookie → Option String
  | [] => none
  | c :: rest =>
    if c.name == "SAPISID" || c.name == "__Secure-3PAPISID" then some c.value
    else findSapisid rest

/-- `_authorization_sapisidhash_header`.  The SHA-1 hex digest is an
external collaborator (`hashlib`), passed as `hash`; `now` is
`int(datetime.now().timestamp())`, the current time truncated to whole
seconds.  A failed `assert` (no recognized cookie) raises
`AssertionError`. -/
def authorization_sapisidhash_header (hash : String → String) (now : Nat)
    (cj : List Cookie) : Except PyErr String :=
  match findSapisid cj with
  | none => .error .assertionError
  | some sapisid =>
    .ok ("SAPISIDHASH " ++ toString now ++ "_" ++
      hash (toString now ++ " " ++ sapisid ++ " https://www.youtube.com"))

/-! ## Network events and generator results -/

/-- One continuation AJAX fetch: the `ctoken`/`continuation` parameter, the
`itct` parameter, and the posted `session_token` form field (absent for the
GET fetches of `get_playlist_info`). -/
structure FetchReq where
  ctoken : JVal
  itct : JVal
  sessionToken : Option JVal

/-- A network interaction performed by an operation, in order: a page
download (`_download_page_soup`), a continuation AJAX fetch, or a
`service_ajax` style POST carrying a session token. -/
inductive NetEvent where
  | pageLoad (url : String)
  | ajax (req : FetchReq)
  | servicePost (url : String) (sessionToken : JVal)

/-- What running one of the generator operations to exhaustion produces:
the entries yielded (in order), the network events performed (in order),
and the exception the generator raised, if any (`none` is normal
termination). -/
structure GenResult where
  entries : List JVal
  events : List NetEvent
  err : Option PyErr

/-- The number of continuation AJAX fetches among a list of events. -/
def ajaxCount (evs : List NetEvent) : Nat :=
  (evs.filter fun e => match e with | .ajax _ => true | _ => false).length

/-- The `session_token` values of the continuation AJAX fetches among a
list of events, in order. -/
def sessionTokens (evs : List NetEvent) : List (Option JVal) :=
  evs.filterMap fun e => match e with | .ajax r => some r.sessionToken | _ => none

/-! ## `YouTube.get_history_info` -/

/-- The emission loop shared by the initial page and every continuation
page of `get_history_info`:
`for section_list in contents: yield from section_list['itemSectionRenderer']['contents']`.
Returns the entries yielded before any lookup error, and that error. -/
def emitSections : List JVal → List JVal × Option PyErr
  | [] => ([], none)
  | sl :: rest =>
    match getKey sl "itemSectionRenderer" with
    | .error e => ([], some e)
    | .ok isr =>
      match getKey isr "contents" with
      | .error e => ([], some e)
      | .ok c =>
        match iterElems c with
        | .error e => ([], some e)
        | .ok items =>
          let r := emitSections rest
          (items ++ r.1, r.2)

/-- The `while True` loop of `get_history_info` (source lines 405-431),
one recursive step per AJAX fetch.  `xsrf` is the current `session_token`,
`ctoken`/`itct` the current continuation parameters, and the list holds the
remaining AJAX responses in order. -/
def historyLoop (xsrf ctoken itct : JVal) : List JVal →
    List JVal × List NetEvent × Option PyErr
  | [] => ([], [], some .starvedFetch)
  | r :: rest =>
    let ev := NetEvent.ajax ⟨ctoken, itct, some xsrf⟩
    match (do
        let a ← getIdx r 1
        let b ← getKey a "response"
        let c ← getKey b "continuationContents"
        getKey c "sectionListContinuation" : Except PyErr JVal) with
    | .error e => ([], [ev], some e)
    | .ok slr =>
      match (do
          let c ← getKey slr "contents"
          iterElems c : Except PyErr (List JVal)) with
      | .error e => ([], [ev], some e)
      | .ok sections =>
        let emitted := emitSections sections
        match emitted.2 with
        | some e => (emitted.1, [ev], some e)
        | none =>
          match getKey slr "continuations" with
          | .error .keyError => (emitted.1, [ev], none)
          | .error e => (emitted.1, [ev], some e)
          | .ok conts =>
            match (do
                let a ← getIdx r 1
                getKey a "xsrf_token" : Except PyErr JVal) with
            | .error e => (emitted.1, [ev], some e)
            | .ok newXsrf =>
              match (do
                  let c0 ← getIdx conts 0
                  getKey c0 "nextContinuationData" : Except PyErr JVal) with
              | .error e => (emitted.1, [ev], some e)
              | .ok nc =>
                match getKey nc "clickTrackingParams" with
                | .error e => (emitted.1, [ev], some e)
                | .ok newItct =>
                  match getKey nc "continuation" with
                  | .error e => (emitted.1, [ev], some e)
                  | .ok newCt =>
                    let rec' := historyLoop newXsrf newCt newItct rest
                    (emitted.1 ++ rec'.1, ev :: rec'.2.1, rec'.2.2)

/-- `YouTube.get_history_info` (source lines 376-431).  `initData` is the
`ytInitialData` blob extracted from the history page, `cfg` the extracted
config blob, `responses` the successive `browse_ajax` responses. -/
def get_history_info (loggedIn : Bool) (initData : JVal) (cfg : YtcfgDict)
    (responses : List JVal) : GenResult :=
  if !loggedIn then ⟨[], [], some .authenticationError⟩
  else
    let load := NetEvent.pageLoad HISTORY_URL
    match (do
        let a ← getKey initData "contents"
        let b ← getKey a "twoColumnBrowseResultsRenderer"
        let c ← getKey b "tabs"
        let d ← getIdx c 0
        let e ← getKey d "tabRenderer"
        let f ← getKey e "content"
        getKey f "sectionListRenderer" : Except PyErr JVal) with
    | .error e => ⟨[], [load], some e⟩
    | .ok slr =>
      match (do
          let c ← getKey slr "contents"
          iterElems c : Except PyErr (List JVal)) with
      | .error e => ⟨[], [load], some e⟩
      | .ok sections =>
        let emitted := emitSections sections
        match emitted.2 with
        | some e => ⟨emitted.1, [load], some e⟩
        | none =>
          match getKey slr "continuations" with
          | .error .keyError => ⟨emitted.1, [load], none⟩
          | .error e => ⟨emitted.1, [load], some e⟩
          | .ok conts =>
            match getIdx conts 0 with
            | .error .keyError => ⟨emitted.1, [load], none⟩
            | .error e => ⟨emitted.1, [load], some e⟩
            | .ok c0 =>
              match getKey c0 "nextContinuationData" with
              | .error .keyError => ⟨emitted.1, [load], none⟩
              | .error e => ⟨emitted.1, [load], some e⟩
              | .ok nc =>
                match getKey nc "continuation" with
                | .error e => ⟨emitted.1, [load], some e⟩
                | .ok ct =>
                  match getKey nc "clickTrackingParams" with
                  | .error e => ⟨emitted.1, [load], some e⟩
                  | .ok itct =>
                    let lp := historyLoop (.str cfg.XSRF_TOKEN) ct itct responses
                    ⟨emitted.1 ++ lp.1, load :: lp.2.1, lp.2.2⟩

/-! ## `YouTube.get_playlist_info` -/

/-- The `try`/`except KeyError` block of `get_playlist_info` (source lines
271-278) extracting the initial continuation descriptor.  `KeyError` is
caught (`pass`), leaving whichever of the sequentially assigned
`continuation` and `itct` were already set; an `IndexError` from `[0]`
escapes. -/
def playlistInitCont (vlr : JVal) :
    Except PyErr (Option JVal × Option JVal) :=
  match getKey vlr "continuations" with
  | .error .keyError => .ok (none, none)
  | .error e => .error e
  | .ok conts =>
    match getIdx conts 0 with
    | .error .keyError => .ok (none, none)
    | .error e => .error e
    | .ok c0 =>
      match getKey c0 "nextContinuationData" with
      | .error .keyError => .ok (none, none)
      | .error e => .error e
      | .ok nc =>
        match getKey nc "continuation" with
        | .error .keyError => .ok (none, none)
        | .error e => .error e
        | .ok ct =>
          match getKey nc "clickTrackingParams" with
          | .error .keyError => .ok (some ct, none)
          | .error e => .error e
          | .ok itct => .ok (some ct, some itct)

/-- The `while True` loop of `get_playlist_info` (source lines 281-305),
one recursive step per AJAX fetch (a GET without a session token). -/
def playlistLoop (ctoken itct : JVal) : List JVal →
    List JVal × List NetEvent × Option PyErr
  | [] => ([], [], some .starvedFetch)
  | r :: rest =>
    let ev := NetEvent.ajax ⟨ctoken, itct, none⟩
    match (do
        let a ← getIdx r 1
        getKey a "response" : Except PyErr JVal) with
    | .error e => ([], [ev], some e)
    | .ok response =>
      match (do
          let a ← getKey response "continuationContents"
          let b ← getKey a "playlistVideoListContinuation"
          let c ← getKey b "contents"
          iterElems c : Except PyErr (List JVal)) with
      | .error e => ([], [ev], some e)
      | .ok items =>
        match (do
            let a ← getKey response "continuationContents"
            getKey a "playlistVideoListContinuation" : Except PyErr JVal) with
        | .error e => (items, [ev], some e)
        | .ok pvlc =>
          match getKey pvlc "continuations" with
          | .error .keyError => (items, [ev], none)
          | .error e => (items, [ev], some e)
          | .ok conts =>
            match (do
                let c0 ← getIdx conts 0
                getKey c0 "nextContinuationData" : Except PyErr JVal) with
            | .error e => (items, [ev], some e)
            | .ok nc =>
              match getKey nc "clickTrackingParams" with
              | .error e => (items, [ev], some e)
              | .ok newItct =>
                match getKey nc "continuation" with
                | .error e => (items, [ev], some e)
                | .ok newCt =>
                  let rec' := playlistLoop newCt newItct rest
                  (items ++ rec'.1, ev :: rec'.2.1, rec'.2.2)

/-- Python truthiness of an optional value (`None` is falsy). -/
def truthyOpt : Option JVal → Bool
  | none => false
  | some v => truthy v

/-- `YouTube.get_playlist_info` (source lines 249-305).  `initData` is the
`ytInitialData` blob of the playlist page, `responses` the successive
`browse_ajax` responses. -/
def get_playlist_info (loggedIn : Bool) (playlistId : String) (initData : JVal)
    (responses : List JVal) : GenResult :=
  if !loggedIn then ⟨[], [], some .authenticationError⟩
  else
    let load := NetEvent.pageLoad
      ("https://www.youtube.com/playlist?list=" ++ playlistId)
    match (do
        let a ← getKey initData "contents"
        let b ← getKey a "twoColumnBrowseResultsRenderer"
        let c ← getKey b "tabs"
        let d ← getIdx c 0
        let e ← getKey d "tabRenderer"
        let f ← getKey e "content"
        let g ← getKey f "sectionListRenderer"
        let h ← getKey g "contents"
        let i ← getIdx h 0
        let j ← getKey i "itemSectionRenderer"
        let k ← getKey j "contents"
        let l ← getIdx k 0
        getKey l "playlistVideoListRenderer" : Except PyErr JVal) with
    | .error e => ⟨[], [load], some e⟩
    | .ok vlr =>
      let firstPage :=
        match getKey vlr "contents" with
        | .error .keyError => Except.ok ([] : List JVal)
        | .error e => Except.error e
        | .ok c => iterElems c
      match firstPage with
      | .error e => ⟨[], [load], some e⟩
      | .ok items =>
        match playlistInitCont vlr with
        | .error e => ⟨items, [load], some e⟩
        | .ok (contOpt, itctOpt) =>
          if truthyOpt contOpt && truthyOpt itctOpt then
            match contOpt, itctOpt with
            | some ct, some itct =>
              let lp := playlistLoop ct itct responses
              ⟨items ++ lp.1, load :: lp.2.1, lp.2.2⟩
            | _, _ => ⟨items, [load], none⟩
          else ⟨items, [load], none⟩

/-! ## `YouTube.live_chat_history` and `YouTube._comment_community_history`

The two generators share their loop structure verbatim in the source; the
only differences are the renderer key of the entry wrapper objects and the
entry mapper.  `contHistFor` models the `for cont in item_section['continuations']`
body and `contHistWhile` the enclosing `while has_continuations` loop. -/

/-- The first-page emission
`for api_entry in (x[key] for x in info): yield mapper(api_entry)`.
Returns the mapped entries yielded before any lookup error, and that
error. -/
def emitMapped (key : String) (mapper : JVal → JVal) :
    List JVal → List JVal × Option PyErr
  | [] => ([], none)
  | x :: rest =>
    match getKey x key with
    | .error e => ([], some e)
    | .ok api =>
      let r := emitMapped key mapper rest
      (mapper api :: r.1, r.2)

/-- One pass of the inner `for cont in ...` loop (source lines 555-578 and
650-674).  Iterates the captured continuation list, performing one AJAX
POST per descriptor with the ytcfg `XSRF_TOKEN` as `session_token`,
rebinding `item_section` and recomputing `has_continuations` after each
fetch.  Returns (entries, events, error, final item_section, final
has_continuations, remaining responses). -/
def contHistFor (key : String) (mapper : JVal → JVal) (xsrf : String) :
    List JVal → JVal → Bool → List JVal →
    List JVal × List NetEvent × Option PyErr × JVal × Bool × List JVal
  | [], its, hc, rs => ([], [], none, its, hc, rs)
  | cont :: more, its, hc, rs =>
    match (do
        let nc ← getKey cont "nextContinuationData"
        getKey nc "continuation" : Except PyErr JVal) with
    | .error e => ([], [], some e, its, hc, rs)
    | .ok ct =>
      match (do
          let nc ← getKey cont "nextContinuationData"
          getKey nc "clickTrackingParams" : Except PyErr JVal) with
      | .error e => ([], [], some e, its, hc, rs)
      | .ok itct =>
        let ev := NetEvent.ajax ⟨ct, itct, some (.str xsrf)⟩
        match rs with
        | [] => ([], [ev], some .starvedFetch, its, hc, [])
        | r :: rs' =>
          match (do
              let a ← getIdx r 1
              let b ← getKey a "response"
              let c ← getKey b "continuationContents"
              getKey c "itemSectionContinuation" : Except PyErr JVal) with
          | .error e => ([], [ev], some e, its, hc, rs')
          | .ok its' =>
            match (do
                let c ← getKey its' "contents"
                iterElems c : Except PyErr (List JVal)) with
            | .error e => ([], [ev], some e, its', hc, rs')
            | .ok xs =>
              let emitted := emitMapped key mapper xs
              match emitted.2 with
              | some e => (emitted.1, [ev], some e, its', hc, rs')
              | none =>
                let hc' := hasKeyB its' "continuations" &&
                  truthyOpt (match getKey its' "continuations" with
                             | .ok v => some v
                             | .error _ => none)
                let r2 := contHistFor key mapper xsrf more its' hc' rs'
                (emitted.1 ++ r2.1, ev :: r2.2.1, r2.2.2.1, r2.2.2.2.1,
                 r2.2.2.2.2.1, r2.2.2.2.2.2)

/-- The `while has_continuations` loop.  The fuel only bounds the number of
loop iterations; callers pass `responses.length + 1`, which is always
enough because every iteration either errs, ends, or consumes at least one
response. -/
def contHistWhile (key : String) (mapper : JVal → JVal) (xsrf : String) :
    Nat → JVal → Bool → List JVal → List JVal × List NetEvent × Option PyErr
  | 0, _, _, _ => ([], [], some .fuelOut)
  | fuel + 1, its, hc, rs =>
    if !hc then ([], [], none)
    else
      match getKey its "continuations" with
      | .error e => ([], [], some e)
      | .ok conts =>
        match iterElems conts with
        | .error e => ([], [], some e)
        | .ok contList =>
          let f := contHistFor key mapper xsrf contList its hc rs
          match f.2.2.1 with
          | some e => (f.1, f.2.1, some e)
          | none =>
            let w := contHistWhile key mapper xsrf fuel f.2.2.2.1
              f.2.2.2.2.1 f.2.2.2.2.2
            (f.1 ++ w.1, f.2.1 ++ w.2.1, w.2.2)

/-- The dotted path both generators dig the first page's
`itemSectionRenderer` out of the initial data with. -/
def ITEM_SECTION_PATH : String :=
  "contents.twoColumnBrowseResultsRenderer.tabs.0.tabRenderer.content.sectionListRenderer.contents.0.itemSectionRenderer"

/-- The common body of `live_chat_history` and `_comment_community_history`
after the login check and page download: dig out the item section, emit the
first page, short-circuit on `only_first_page` or a missing or falsy
`continuations` entry, otherwise run the fetch loop. -/
def contHistBody (key : String) (mapper : JVal → JVal) (url : String)
    (onlyFirstPage : Bool) (initData : JVal) (cfg : YtcfgDict)
    (responses : List JVal) : GenResult :=
  let load := NetEvent.pageLoad url
  match at_path ITEM_SECTION_PATH initData with
  | .error e => ⟨[], [load], some e⟩
  | .ok itemSection =>
    match (do
        let c ← getKey itemSection "contents"
        iterElems c : Except PyErr (List JVal)) with
    | .error e => ⟨[], [load], some e⟩
    | .ok xs =>
      let emitted := emitMapped key mapper xs
      match emitted.2 with
      | some e => ⟨emitted.1, [load], some e⟩
      | none =>
        if onlyFirstPage || !hasKeyB itemSection "continuations" ||
            !(truthyOpt (match getKey itemSection "continuations" with
                         | .ok v => some v
                         | .error _ => none)) then
          ⟨emitted.1, [load], none⟩
        else
          let w := contHistWhile key mapper cfg.XSRF_TOKEN
            (responses.length + 1) itemSection true responses
          ⟨emitted.1 ++ w.1, load :: w.2.1, w.2.2⟩

/-- `YouTube.live_chat_history` (source lines 528-578).  The entry mapper
`make_live_chat_history_entry` lives in a module absent from the sources
and is passed as the abstract `mapper`. -/
def live_chat_history (loggedIn onlyFirstPage : Bool) (mapper : JVal → JVal)
    (initData : JVal) (cfg : YtcfgDict) (responses : List JVal) : GenResult :=
  if !loggedIn then ⟨[], [], some .authenticationError⟩
  else contHistBody "liveChatHistoryEntryRenderer" mapper
    LIVE_CHAT_HISTORY_URL onlyFirstPage initData cfg responses

/-- Modelled from the spec: `comment.DEFAULT_DELETE_ACTION_PATH` lives in a
module absent from the sources; it is a dotted path constant handed to the
entry mapper, and nothing in the claims depends on its value. -/
def DEFAULT_DELETE_ACTION_PATH : String := "DEFAULT_DELETE_ACTION_PATH"

/-- The delete-action path `_comment_community_history` selects from its
URL (source lines 636-643). -/
def deleteActionPathFor (url : String) : String :=
  if url == COMMENT_HISTORY_URL then DEFAULT_DELETE_ACTION_PATH
  else "actionMenu.menuRenderer.items.0.menuNavigationItemRenderer.navigationEndpoint.confirmDialogEndpoint.content.confirmDialogRenderer.confirmButton.buttonRenderer.serviceEndpoint.performCommentActionEndpoint.action"

/-- `YouTube._comment_community_history` (source lines 619-674).  The entry
mapper `make_comment_history_entry` (absent from the sources) is passed as
the abstract `mapper`, taking the api entry and the delete-action path. -/
def comment_community_history (loggedIn onlyFirstPage : Bool)
    (mapper : JVal → String → JVal) (url : String) (initData : JVal)
    (cfg : YtcfgDict) (responses : List JVal) : GenResult :=
  if !loggedIn then ⟨[], [], some .authenticationError⟩
  else contHistBody "commentHistoryEntryRenderer"
    (fun api => mapper api (deleteActionPathFor url)) url onlyFirstPage
    initData cfg responses

/-! ## `YouTube.clear_watch_history` and
`YouTube.remove_set_video_id_from_playlist` -/

/-- `YouTube.clear_watch_history` (source lines 153-191).  `initData` is the
extracted initial data of the history page; the `service_ajax` response is
discarded by the source, so it is not an input.  The `try`/`except
KeyError` around the confirm-button path extraction returns early (history
assumed empty) without issuing the POST. -/
def clear_watch_history (loggedIn : Bool) (cfg : YtcfgDict) (initData : JVal) :
    Except PyErr Unit × List NetEvent :=
  if !loggedIn then (.error .authenticationError, [])
  else
    let load := NetEvent.pageLoad HISTORY_URL
    match (do
        let a ← getKey initData "contents"
        let b ← getKey a "twoColumnBrowseResultsRenderer"
        let c ← getKey b "secondaryContents"
        let d ← getKey c "browseFeedActionsRenderer"
        let e ← getKey d "contents"
        let f ← getIdx e 2
        let g ← getKey f "buttonRenderer"
        let h ← getKey g "navigationEndpoint"
        let i ← getKey h "confirmDialogEndpoint"
        let j ← getKey i "content"
        let k ← getKey j "confirmDialogRenderer"
        let l ← getKey k "confirmButton"
        let m ← getKey l "buttonRenderer"
        getKey m "serviceEndpoint" : Except PyErr JVal) with
    | .error .keyError => (.ok (), [load])
    | .error e => (.error e, [load])
    | .ok _ =>
      (.ok (), [load, NetEvent.servicePost SERVICE_AJAX_URL (.str cfg.XSRF_TOKEN)])

/-- Python truthiness of an optional string argument (`None` and the empty
string are falsy). -/
def truthyOptStr : Option String → Bool
  | none => false
  | some s => !(s == "")

/-- `YouTube.remove_set_video_id_from_playlist` (source lines 92-151).  When
any of `headers`, `csn`, `xsrf_token` is falsy, the Watch Later page is
downloaded and its config blob (`wlCfg`, an input standing for the
downloaded page's parsed ytcfg) is used to fill them in; the `service_ajax`
POST then carries `csn or ytcfg['EVENT_ID']` and
`xsrf_token or ytcfg['XSRF_TOKEN']`, and a response whose `code` is not
`'SUCCESS'` raises `UnexpectedError`. -/
def remove_set_video_id_from_playlist (loggedIn : Bool)
    (csn : Option String) (headers : Option (List (String × String)))
    (xsrfToken : Option String) (wlCfg : YtcfgDict) (serviceResp : JVal) :
    Except PyErr Unit × List NetEvent :=
  if !loggedIn then (.error .authenticationError, [])
  else
    let needFetch := !(match headers with
                       | none => false
                       | some h => !h.isEmpty) ||
      !truthyOptStr csn || !truthyOptStr xsrfToken
    let preEvents := if needFetch then [NetEvent.pageLoad WATCH_LATER_URL] else []
    let sessTok := if truthyOptStr xsrfToken then xsrfToken.getD ""
                   else wlCfg.XSRF_TOKEN
    let events := preEvents ++ [NetEvent.servicePost SERVICE_AJAX_URL (.str sessTok)]
    match getKey serviceResp "code" with
    | .error e => (.error e, events)
    | .ok c =>
      match c with
      | .str "SUCCESS" => (.ok (), events)
      | _ => (.error .unexpectedError, events)

/-! ## Synthetic pages

The pagination claims quantify over sequences of pages.  A `SynthPage`
carries one page's entries together with the continuation token and click
tracking parameter the page is fetched with, and the anti-forgery token its
response supplies.  The builders below assemble the exact nested structures
the source digs through: each page's response carries a next-continuation
descriptor for the following page precisely when a following page
exists. -/

structure SynthPage where
  entries : List JVal
  tok : String
  itct : String
  xsrf : String

/-- A `nextContinuationData` descriptor object. -/
def nextContObj (tok itct : String) : JVal :=
  .obj [("nextContinuationData",
    .obj [("continuation", .str tok), ("clickTrackingParams", .str itct)])]

/-- The `continuations` entry pointing at the next page, absent when no
page follows. -/
def contsOf : List SynthPage → List (String × JVal)
  | [] => []
  | q :: _ => [("continuations", .arr [nextContObj q.tok q.itct])]

/-- A `sectionListRenderer`/`sectionListContinuation` with one section
holding the given entries. -/
def histSLR (es : List JVal) (rest : List SynthPage) : JVal :=
  .obj (("contents",
    .arr [.obj [("itemSectionRenderer", .obj [("contents", .arr es)])]]) ::
    contsOf rest)

/-- Wrap a `sectionListRenderer` into the initial-data nesting every
browse page uses. -/
def browseWrap (slr : JVal) : JVal :=
  .obj [("contents", .obj [("twoColumnBrowseResultsRenderer",
    .obj [("tabs", .arr [.obj [("tabRenderer", .obj [("content",
      .obj [("sectionListRenderer", slr)])])]])])])]

/-- Initial data for `get_history_info`: first page entries plus a
descriptor for the second page when one exists. -/
def histInit (es : List JVal) (rest : List SynthPage) : JVal :=
  browseWrap (histSLR es rest)

/-- A `browse_ajax` response for `get_history_info`: a two-element array
whose second element holds the response and the rotated `xsrf_token`. -/
def histResp (p : SynthPage) (rest : List SynthPage) : JVal :=
  .arr [.int 0, .obj [("response", .obj [("continuationContents",
    .obj [("sectionListContinuation", histSLR p.entries rest)])]),
    ("xsrf_token", .str p.xsrf)]]

/-- The chained `browse_ajax` responses for the follow-up pages of
`get_history_info`. -/
def histChain : List SynthPage → List JVal
  | [] => []
  | p :: rest => histResp p rest :: histChain rest

/-- A `playlistVideoListRenderer`/`playlistVideoListContinuation`. -/
def playlistVLR (es : List JVal) (rest : List SynthPage) : JVal :=
  .obj (("contents", .arr es) :: contsOf rest)

/-- Initial data for `get_playlist_info` around an arbitrary video list
renderer. -/
def playlistInitOf (vlr : JVal) : JVal :=
  browseWrap (.obj [("contents", .arr [.obj [("itemSectionRenderer",
    .obj [("contents", .arr [.obj [("playlistVideoListRenderer", vlr)]])])]])])

/-- Initial data for `get_playlist_info`: first page entries plus a
descriptor for the second page when one exists. -/
def playlistInit (es : List JVal) (rest : List SynthPage) : JVal :=
  playlistInitOf (playlistVLR es rest)

/-- A `browse_ajax` response for `get_playlist_info`. -/
def playlistResp (p : SynthPage) (rest : List SynthPage) : JVal :=
  .arr [.int 0, .obj [("response", .obj [("continuationContents",
    .obj [("playlistVideoListContinuation", playlistVLR p.entries rest)])])]]

/-- The chained `browse_ajax` responses for the follow-up pages of
`get_playlist_info`. -/
def playlistChain : List SynthPage → List JVal
  | [] => []
  | p :: rest => playlistResp p rest :: playlistChain rest

/-- An `itemSectionRenderer`/`itemSectionContinuation` for the live-chat and
comment/community cursors: the page's `entries` are the raw api objects,
each wrapped under the renderer key. -/
def sectISR (key : String) (apis : List JVal) (rest : List SynthPage) : JVal :=
  .obj (("contents", .arr (apis.map fun a => .obj [(key, a)])) :: contsOf rest)

/-- Initial data for the live-chat and comment/community cursors. -/
def sectInit (key : String) (apis : List JVal) (rest : List SynthPage) : JVal :=
  browseWrap (.obj [("contents",
    .arr [.obj [("itemSectionRenderer", sectISR key apis rest)]])])

/-- A `browse_ajax` response for the live-chat and comment/community
cursors; it also carries an `xsrf_token` those cursors never read. -/
def sectResp (key : String) (p : SynthPage) (rest : List SynthPage) : JVal :=
  .arr [.int 0, .obj [("response", .obj [("continuationContents",
    .obj [("itemSectionContinuation", sectISR key p.entries rest)])]),
    ("xsrf_token", .str p.xsrf)]]

/-- The chained `browse_ajax` responses for the follow-up pages of the
live-chat and comment/community cursors. -/
def sectChain (key : String) : List SynthPage → List JVal
  | [] => []
  | p :: rest => sectResp key p rest :: sectChain key rest

/-- Concatenation of all synthetic pages' entries, in page order. -/
def pagesEntries (ps : List SynthPage) : List JVal :=
  (ps.map SynthPage.entries).flatten

/-! ## Expected outputs for chained pages, and concrete inputs -/

/-- The AJAX fetches `historyLoop` performs over a chain: the first uses
the given token and parameters; after a page that carries a continuation,
the next fetch uses that response's `xsrf_token` and the descriptor's
parameters. -/
def histLoopEvents (xsrf ct itct : JVal) : List SynthPage → List NetEvent
  | [] => []
  | [_] => [NetEvent.ajax ⟨ct, itct, some xsrf⟩]
  | p :: q :: rest =>
    NetEvent.ajax ⟨ct, itct, some xsrf⟩ ::
      histLoopEvents (.str p.xsrf) (.str q.tok) (.str q.itct) (q :: rest)

/-- The AJAX fetches `playlistLoop` performs over a chain (GET requests
without a session token). -/
def playlistLoopEvents (ct itct : JVal) : List SynthPage → List NetEvent
  | [] => []
  | [_] => [NetEvent.ajax ⟨ct, itct, none⟩]
  | _ :: q :: rest =>
    NetEvent.ajax ⟨ct, itct, none⟩ ::
      playlistLoopEvents (.str q.tok) (.str q.itct) (q :: rest)

/-- Concatenation of the mapped entries of the live-chat/comment pages. -/
def sectPagesEntries (f : JVal → JVal) (ps : List SynthPage) : List JVal :=
  (ps.map fun p => p.entries.map f).flatten

/-- The AJAX fetches the live-chat/comment loop performs over a chain: one
per page, every one carrying the same initial `XSRF_TOKEN`. -/
def sectEvents (xsrf : String) (ps : List SynthPage) : List NetEvent :=
  ps.map fun p => NetEvent.ajax ⟨.str p.tok, .str p.itct, some (.str xsrf)⟩

/-- An `itemSectionRenderer` whose `continuations` entry is an arbitrary
value, or absent. -/
def sectISRC (key : String) (apis : List JVal) (contVal : Option JVal) : JVal :=
  .obj (("contents", .arr (apis.map fun a => JVal.obj [(key, a)])) ::
    (match contVal with
     | none => []
     | some c => [("continuations", c)]))

/-- Initial data around `sectISRC`. -/
def sectInitC (key : String) (apis : List JVal) (contVal : Option JVal) : JVal :=
  browseWrap (.obj [("contents",
    .arr [.obj [("itemSectionRenderer", sectISRC key apis contVal)]])])

/-- A concrete config blob whose anti-forgery token is `"old"`. -/
def cfgA : YtcfgDict := ⟨1, "2.0", "idtok", 7, "vchk", "old", "ev0"⟩

/-- Two follow-up comment-history pages; the first one's response supplies
the rotated anti-forgery token `"new"`. -/
def c2pages : List SynthPage :=
  [⟨[.str "c2"], "t2", "i2", "new"⟩, ⟨[.str "c3"], "t3", "i3", "x3"⟩]

/-- The `xsrf_token` field of the first response of a chain, read the way
`get_history_info` reads it (`resp[1]['xsrf_token']`). -/
def firstRespXsrf (rs : List JVal) : Option (Except PyErr JVal) :=
  rs.head?.map fun r => (do
    let a ← getIdx r 1
    getKey a "xsrf_token" : Except PyErr JVal)

/-- The spec's own Config Extractor example: a script element whose text is
exactly the config-initialization assignment, with nothing before it. -/
def specScript : String :=
  "ytcfg.set(\x7b\"INNERTUBE_CONTEXT_CLIENT_VERSION\":\"2.0\",\"XSRF_TOKEN\":\"abc\"\x7d);"

/-- The spec's example amended with a one-character-or-longer prefix before
the assignment, as on real pages. -/
def amScript : String :=
  "window.ytcfg.set(\x7b\"INNERTUBE_CONTEXT_CLIENT_VERSION\":\"2.0\",\"XSRF_TOKEN\":\"abc\"\x7d);"

/-- A second candidate script, earlier in document order, with a different
token value. -/
def amScriptFirst : String :=
  "window.ytcfg.set(\x7b\"INNERTUBE_CONTEXT_CLIENT_VERSION\":\"2.0\",\"XSRF_TOKEN\":\"first\"\x7d);"

/-- Whether a cookie bears one of the two recognized session-id names. -/
def recognizedCookie (c : Cookie) : Bool :=
  c.name == "SAPISID" || c.name == "__Secure-3PAPISID"

/-- A jar holding both recognized cookies, `__Secure-3PAPISID` first. -/
def jarA : List Cookie :=
  [⟨"__Secure-3PAPISID", "b"⟩, ⟨"SAPISID", "a"⟩]

/-- The same cookies in the opposite jar order. -/
def jarB : List Cookie :=
  [⟨"SAPISID", "a"⟩, ⟨"__Secure-3PAPISID", "b"⟩]

/-! ## Claim theorems -/

/-- Claim C8: for every valid `ConfigBlob`, `ytcfg_headers` produces all
required header keys, with the client-name, client-version, identity-token
and checksum values copied verbatim from the blob's fields (the numeric
client-name and page-cl fields are rendered in decimal by `str(...)`). -/
theorem C8_ytcfg_headers_verbatim (cfg : YtcfgDict) :
    (ytcfg_headers cfg).map Prod.fst =
      ["x-spf-previous", "x-spf-referer", "x-youtube-client-name",
       "x-youtube-client-version", "x-youtube-identity-token",
       "x-youtube-page-cl", "x-youtube-utc-offset",
       "x-youtube-variants-checksum"]
    ∧ (ytcfg_headers cfg).lookup "x-youtube-client-name"
        = some (toString cfg.INNERTUBE_CONTEXT_CLIENT_NAME)
    ∧ (ytcfg_headers cfg).lookup "x-youtube-client-version"
        = some cfg.INNERTUBE_CONTEXT_CLIENT_VERSION
    ∧ (ytcfg_headers cfg).lookup "x-youtube-identity-token"
        = some cfg.ID_TOKEN
    ∧ (ytcfg_headers cfg).lookup "x-youtube-page-cl"
        = some (toString cfg.PAGE_CL)
    ∧ (ytcfg_headers cfg).lookup "x-youtube-variants-checksum"
        = some cfg.VARIANTS_CHECKSUM := by
  refine ⟨rfl, ?_, ?_, ?_, ?_, ?_⟩ <;> simp [ytcfg_headers, List.lookup]

/-- Claim C10: every account-collection operation raises
`AuthenticationError` when the session is not logged in, before issuing any
network fetch (the event trace is empty) and without touching any state. -/
theorem C10_auth_guard (initData : JVal) (cfg wlCfg : YtcfgDict)
    (responses : List JVal) (pid : String) (ofp : Bool) (f : JVal → JVal)
    (csn : Option String) (hdrs : Option (List (String × String)))
    (xt : Option String) (sresp : JVal) :
    get_history_info false initData cfg responses
      = ⟨[], [], some .authenticationError⟩
    ∧ get_playlist_info false pid initData responses
      = ⟨[], [], some .authenticationError⟩
    ∧ clear_watch_history false cfg initData
      = (.error .authenticationError, [])
    ∧ remove_set_video_id_from_playlist false csn hdrs xt wlCfg sresp
      = (.error .authenticationError, [])
    ∧ live_chat_history false ofp f initData cfg responses
      = ⟨[], [], some .authenticationError⟩ :=
  ⟨rfl, rfl, rfl, rfl, rfl⟩

/-- Claim C3 counterexample: a `get_playlist_info` initial page whose
`continuations` entry is present but an empty list makes the cursor raise
`IndexError` (from `['continuations'][0]`, which the `except KeyError`
does not catch) instead of terminating as a success. -/
theorem C3_counterexample :
    (get_playlist_info true "PL"
      (playlistInitOf (.obj [("contents", .arr [.str "e1"]),
        ("continuations", .arr [])])) []).err = some .indexError := rfl

/-- Claim C5 counterexample: a `get_playlist_info` initial page on which
the whole entry-container path is absent (here: empty initial data) makes
the cursor raise `KeyError` rather than yield zero entries and terminate
without error — only the try/except around the final `['contents']`
lookup is protected. -/
theorem C5_counterexample :
    get_playlist_info true "PL" (.obj []) []
      = ⟨[], [.pageLoad "https://www.youtube.com/playlist?list=PL"],
          some .keyError⟩ := rfl

/-- Claim C2 counterexample: in the comment-history cursor over three
pages, the first fetched response supplies the rotated anti-forgery token
`"new"`, yet the second fetch still posts the initial config token
`"old"` — `_comment_community_history` never adopts a rotated token. -/
theorem C2_counterexample :
    sessionTokens (comment_community_history true false (fun a _ => a)
        COMMENT_HISTORY_URL
        (sectInit "commentHistoryEntryRenderer" [.str "c1"] c2pages)
        cfgA (sectChain "commentHistoryEntryRenderer" c2pages)).events
      = [some (.str "old"), some (.str "old")]
    ∧ firstRespXsrf (sectChain "commentHistoryEntryRenderer" c2pages)
      = some (.ok (.str "new"))
    ∧ (JVal.str "old") ≠ (JVal.str "new") :=
  ⟨rfl, rfl, fun h => by injection h with h2; exact absurd h2 (by decide)⟩

/-- Claim C6 counterexample: on the spec's own example input — a script
whose text is exactly the assignment with nothing before it — the
`.+ytcfg.set\(\x7b` pattern of `find_ytcfg` cannot match (its `.+` needs at
least one character before the marker), so the text reaches `raw_decode`
unstripped and extraction fails with the malformed-config condition
instead of yielding a blob with `XSRF_TOKEN == "abc"`. -/
theorem C6_counterexample :
    find_ytcfg [specScript] = .error .malformedConfig := rfl

/-- Claim C6 (amended): for a script whose text embeds the
config-initialization assignment preceded by at least one character (as on
real pages), `find_ytcfg` returns the parsed blob (so `XSRF_TOKEN` equals
`"abc"`), and with several candidate scripts the first in document order
is the one parsed. -/
theorem C6_amended :
    find_ytcfg [amScript]
      = .ok (.obj [("INNERTUBE_CONTEXT_CLIENT_VERSION", .str "2.0"),
                   ("XSRF_TOKEN", .str "abc")])
    ∧ find_ytcfg ["no signature here", amScriptFirst, amScript]
      = .ok (.obj [("INNERTUBE_CONTEXT_CLIENT_VERSION", .str "2.0"),
                   ("XSRF_TOKEN", .str "first")]) := ⟨rfl, rfl⟩

/-- Reduction of an `Except` bind on a success value. -/
theorem bindOk {e a b : Type} (x : a) (f : a → Except e b) :
    (do let y ← Except.ok x; f y : Except e b) = f x := rfl

/-- Reduction of an `Except` bind on an error value. -/
theorem bindErr {e a b : Type} (v : e) (f : a → Except e b) :
    (do let y ← Except.error v; f y : Except e b) = Except.error v := rfl

/-- First-page emission over wrapped api entries yields exactly the mapped
entries, with no error. -/
theorem emitMapped_wrap (key : String) (f : JVal → JVal) (apis : List JVal) :
    emitMapped key f (apis.map fun a => JVal.obj [(key, a)])
      = (apis.map f, none) := by
  induction apis with
  | nil => rfl
  | cons a rest ih => simp [emitMapped, getKey, ih]

/-- Digging the item section out of the synthetic initial data. -/
theorem at_path_sectInitC (key : String) (apis : List JVal) (cv : Option JVal) :
    at_path ITEM_SECTION_PATH (sectInitC key apis cv)
      = .ok (sectISRC key apis cv) := rfl

/-- With `only_first_page` set, the shared cursor body emits the first
page and stops, whatever the `continuations` entry holds. -/
theorem contHistBody_first_page (key : String) (f : JVal → JVal)
    (url : String) (apis : List JVal) (cv : Option JVal) (cfg : YtcfgDict)
    (rs : List JVal) :
    contHistBody key f url true (sectInitC key apis cv) cfg rs
      = ⟨apis.map f, [.pageLoad url], none⟩ := by
  simp [contHistBody, at_path_sectInitC, sectISRC, getKey, iterElems,
    emitMapped_wrap, bindOk, bindErr, List.lookup]

/-- With an empty `continuations` list, the shared cursor body emits the
first page and stops without error. -/
theorem contHistBody_empty_conts (key : String) (f : JVal → JVal)
    (url : String) (apis : List JVal) (cfg : YtcfgDict) (rs : List JVal) :
    contHistBody key f url false (sectInitC key apis (some (.arr []))) cfg rs
      = ⟨apis.map f, [.pageLoad url], none⟩ := by
  simp [contHistBody, at_path_sectInitC, sectISRC, getKey, iterElems,
    emitMapped_wrap, hasKeyB, truthyOpt, truthy, bindOk, bindErr, List.lookup]

/-- Claim C4: with `only_first_page` set, the live-chat, comment-history
and community-history cursors yield exactly the first page's (mapped)
entries and perform zero follow-up fetches, whether or not the first page
carries a continuation descriptor (`cv` is an arbitrary optional
`continuations` value). -/
theorem C4_only_first_page (f : JVal → JVal) (g : JVal → String → JVal)
    (apis : List JVal) (cv : Option JVal) (cfg : YtcfgDict)
    (rs : List JVal) :
    live_chat_history true true f
        (sectInitC "liveChatHistoryEntryRenderer" apis cv) cfg rs
      = ⟨apis.map f, [.pageLoad LIVE_CHAT_HISTORY_URL], none⟩
    ∧ comment_community_history true true g COMMENT_HISTORY_URL
        (sectInitC "commentHistoryEntryRenderer" apis cv) cfg rs
      = ⟨apis.map (fun a => g a (deleteActionPathFor COMMENT_HISTORY_URL)),
          [.pageLoad COMMENT_HISTORY_URL], none⟩
    ∧ comment_community_history true true g COMMUNITY_HISTORY_URL
        (sectInitC "commentHistoryEntryRenderer" apis cv) cfg rs
      = ⟨apis.map (fun a => g a (deleteActionPathFor COMMUNITY_HISTORY_URL)),
          [.pageLoad COMMUNITY_HISTORY_URL], none⟩ :=
  ⟨contHistBody_first_page _ _ _ _ _ _ _,
   contHistBody_first_page _ _ _ _ _ _ _,
   contHistBody_first_page _ _ _ _ _ _ _⟩

/-- Claim C3 (amended): a page carrying no next-continuation descriptor
terminates every cursor as a success with no further fetches; a page
carrying an *empty* descriptor list terminates the live-chat and
comment/community cursors as a success, but makes `get_playlist_info` and
`get_history_info` raise `IndexError` from `continuations[0]`. -/
theorem C3_amended_termination (es apis : List JVal) (pid : String)
    (f : JVal → JVal) (cfg : YtcfgDict) (rs : List JVal) :
    get_playlist_info true pid (playlistInit es []) rs
      = ⟨es, [.pageLoad ("https://www.youtube.com/playlist?list=" ++ pid)],
          none⟩
    ∧ live_chat_history true false f
        (sectInitC "liveChatHistoryEntryRenderer" apis (some (.arr [])))
        cfg rs
      = ⟨apis.map f, [.pageLoad LIVE_CHAT_HISTORY_URL], none⟩
    ∧ (get_playlist_info true pid
        (playlistInitOf (.obj [("contents", .arr es),
          ("continuations", .arr [])])) rs).err = some .indexError
    ∧ (get_history_info true
        (browseWrap (.obj [("contents",
          .arr [.obj [("itemSectionRenderer", .obj [("contents", .arr es)])]]),
          ("continuations", .arr [])])) cfg rs).err = some .indexError :=
  ⟨rfl, contHistBody_empty_conts _ _ _ _ _ _, rfl, rfl⟩

/-- Claim C5 (amended): a `get_playlist_info` initial page whose video-list
renderer lacks the final `contents` entry (and any continuation) yields
zero entries and terminates without error; absence of an *earlier* segment
of the container path instead raises (see the counterexample). -/
theorem C5_amended_empty_collection (kvs : List (String × JVal))
    (pid : String) (h1 : kvs.lookup "contents" = none)
    (h2 : kvs.lookup "continuations" = none) :
    get_playlist_info true pid (playlistInitOf (.obj kvs)) []
      = ⟨[], [.pageLoad ("https://www.youtube.com/playlist?list=" ++ pid)],
          none⟩ := by
  simp [get_playlist_info, playlistInitOf, browseWrap, getKey, getIdx,
    iterElems, playlistInitCont, truthyOpt, bindOk, bindErr, List.lookup,
    h1, h2]

/-- Witness for C5's amended theorem at the empty renderer. -/
theorem C5_amended_witness :
    get_playlist_info true "PL" (playlistInitOf (.obj [])) []
      = ⟨[], [.pageLoad ("https://www.youtube.com/playlist?list=" ++ "PL")],
          none⟩ :=
  C5_amended_empty_collection [] "PL" rfl rfl

/-- Claim C7: `find_ytcfg` fails with the config-not-found condition when
no script element contains the signature substring, and with the distinct
malformed-config condition when the first candidate's stripped text does
not decode as JSON. -/
theorem C7_find_ytcfg_failures (scripts : List String) :
    ((∀ s ∈ scripts, hasSignature s = false) →
      find_ytcfg scripts = .error .configNotFound)
    ∧ (∀ t rest, scripts.filter hasSignature = t :: rest →
        rawDecode (pySubYtcfg (pyStrip t)) = none →
        find_ytcfg scripts = .error .malformedConfig) := by
  constructor
  · intro h
    have hf : scripts.filter hasSignature = [] :=
      List.filter_eq_nil_iff.mpr (fun a ha => by simp [h a ha])
    simp [find_ytcfg, hf]
  · intro t rest hf hd
    simp [find_ytcfg, hf, hd]

/-- Witness for C7 at concrete failing documents: one with no candidate
script, one whose candidate does not strip to valid JSON. -/
theorem C7_witness :
    find_ytcfg ["var x = 1;"] = .error .configNotFound
    ∧ find_ytcfg ["junk \"INNERTUBE_CONTEXT_CLIENT_VERSION\": nope"]
      = .error .malformedConfig := by
  constructor
  · exact (C7_find_ytcfg_failures ["var x = 1;"]).1 (by decide)
  · exact (C7_find_ytcfg_failures
      ["junk \"INNERTUBE_CONTEXT_CLIENT_VERSION\": nope"]).2 _ [] rfl rfl

/-- Claim C9 counterexample: the two jars hold exactly the same recognized
(name, value) cookies — they are permutations of one another — yet the
authorization builder signs with `"b"` for one and `"a"` for the other.
The selection follows jar iteration order, not a fixed preference order
across the known cookie names. -/
theorem C9_counterexample :
    jarA.Perm jarB
    ∧ authorization_sapisidhash_header (fun s => s) 5 jarA
      = .ok "SAPISIDHASH 5_5 b https://www.youtube.com"
    ∧ authorization_sapisidhash_header (fun s => s) 5 jarB
      = .ok "SAPISIDHASH 5_5 a https://www.youtube.com" :=
  ⟨List.Perm.swap _ _ _, rfl, rfl⟩

/-- The cookie scan returns the first recognized cookie in jar order. -/
theorem findSapisid_found (pre : List Cookie) (c : Cookie)
    (post : List Cookie) (hpre : ∀ d ∈ pre, recognizedCookie d = false)
    (hc : recognizedCookie c = true) :
    findSapisid (pre ++ c :: post) = some c.value := by
  induction pre with
  | nil =>
    have hc' : (c.name == "SAPISID" || c.name == "__Secure-3PAPISID")
        = true := hc
    simp [findSapisid, hc']
  | cons d rest ih =>
    have hd' : (d.name == "SAPISID" || d.name == "__Secure-3PAPISID")
        = false := hpre d (by simp)
    simp only [List.cons_append, findSapisid, hd', Bool.false_eq_true,
      if_false]
    exact ih (fun x hx => hpre x (by simp [hx]))

/-- The cookie scan fails when no cookie is recognized. -/
theorem findSapisid_none (cj : List Cookie)
    (h : ∀ d ∈ cj, recognizedCookie d = false) : findSapisid cj = none := by
  induction cj with
  | nil => rfl
  | cons d rest ih =>
    have hd' : (d.name == "SAPISID" || d.name == "__Secure-3PAPISID")
        = false := h d (by simp)
    simp only [findSapisid, hd', Bool.false_eq_true, if_false]
    exact ih (fun x hx => h x (by simp [hx]))

/-- Claim C9 (amended): when a recognized session-id cookie is present, the
authorization builder signs with the value of the *first cookie in jar
iteration order* whose name is `SAPISID` or `__Secure-3PAPISID` (not a
fixed preference order across the names), producing
`SAPISIDHASH {timestamp}_{digest of "{timestamp} {cookie} {origin}"}`
with the timestamp truncated to whole seconds; when no recognized cookie
is present it fails (the failed `assert`, surfacing the
auth-token-unavailable condition). -/
theorem C9_amended_authorization (hash : String → String) (now : Nat)
    (pre post : List Cookie) (c : Cookie)
    (hpre : ∀ d ∈ pre, recognizedCookie d = false)
    (hc : recognizedCookie c = true) :
    authorization_sapisidhash_header hash now (pre ++ c :: post)
      = .ok ("SAPISIDHASH " ++ toString now ++ "_" ++
          hash (toString now ++ " " ++ c.value ++ " https://www.youtube.com"))
    ∧ ∀ cj : List Cookie, (∀ d ∈ cj, recognizedCookie d = false) →
        authorization_sapisidhash_header hash now cj
          = .error .assertionError := by
  constructor
  · simp [authorization_sapisidhash_header,
      findSapisid_found pre c post hpre hc]
  · intro cj h
    simp [authorization_sapisidhash_header, findSapisid_none cj h]

/-- Witness for C9's amended theorem at a concrete jar (and the empty
jar), with the identity function standing in for the digest
collaborator. -/
theorem C9_amended_witness :
    authorization_sapisidhash_header (fun s => s) 0 [⟨"SAPISID", "a"⟩]
      = .ok "SAPISIDHASH 0_0 a https://www.youtube.com"
    ∧ authorization_sapisidhash_header (fun s => s) 0 []
      = .error .assertionError := by
  have h := C9_amended_authorization (fun s => s) 0 [] [] ⟨"SAPISID", "a"⟩
    (fun d hd => absurd hd (List.not_mem_nil d)) rfl
  exact ⟨h.1, h.2 [] (fun d hd => absurd hd (List.not_mem_nil d))⟩

/-- One `historyLoop` step on a chain's final page: its response carries no
continuation, so the loop breaks successfully after one fetch. -/
theorem historyLoop_last (xsrf ct itct : JVal) (p : SynthPage) :
    historyLoop xsrf ct itct [histResp p []]
      = (p.entries, [.ajax ⟨ct, itct, some xsrf⟩], none) := by
  simp [historyLoop, histResp, histSLR, contsOf, emitSections, getKey,
    getIdx, iterElems, bindOk, bindErr, List.lookup]

/-- One `historyLoop` step on a middle page: its response carries the next
page's descriptor and a rotated `xsrf_token`, both adopted for the
recursive call. -/
theorem historyLoop_step (xsrf ct itct : JVal) (p q : SynthPage)
    (rest : List SynthPage) (more : List JVal) :
    historyLoop xsrf ct itct (histResp p (q :: rest) :: more)
      = (p.entries ++
          (historyLoop (.str p.xsrf) (.str q.tok) (.str q.itct) more).1,
         NetEvent.ajax ⟨ct, itct, some xsrf⟩ ::
          (historyLoop (.str p.xsrf) (.str q.tok) (.str q.itct) more).2.1,
         (historyLoop (.str p.xsrf) (.str q.tok) (.str q.itct) more).2.2) := by
  simp [historyLoop, histResp, histSLR, contsOf, nextContObj, emitSections,
    getKey, getIdx, iterElems, bindOk, bindErr, List.lookup]

/-- `historyLoop` over a whole chain: it emits every page's entries in
order, performs the expected fetches, and terminates successfully. -/
theorem historyLoop_chain (rest : List SynthPage) :
    ∀ (p : SynthPage) (xsrf ct itct : JVal),
    historyLoop xsrf ct itct (histChain (p :: rest))
      = (pagesEntries (p :: rest), histLoopEvents xsrf ct itct (p :: rest),
         none) := by
  induction rest with
  | nil =>
    intro p xsrf ct itct
    simp [histChain, historyLoop_last, pagesEntries, histLoopEvents]
  | cons q rest' ih =>
    intro p xsrf ct itct
    have hstep := historyLoop_step xsrf ct itct p q rest'
      (histChain (q :: rest'))
    rw [show histChain (p :: q :: rest')
        = histResp p (q :: rest') :: histChain (q :: rest') from rfl, hstep,
      ih q (.str p.xsrf) (.str q.tok) (.str q.itct)]
    simp [pagesEntries, histLoopEvents]

/-- One `playlistLoop` step on a chain's final page. -/
theorem playlistLoop_last (ct itct : JVal) (p : SynthPage) :
    playlistLoop ct itct [playlistResp p []]
      = (p.entries, [.ajax ⟨ct, itct, none⟩], none) := by
  simp [playlistLoop, playlistResp, playlistVLR, contsOf, getKey, getIdx,
    iterElems, bindOk, bindErr, List.lookup]

/-- One `playlistLoop` step on a middle page. -/
theorem playlistLoop_step (ct itct : JVal) (p q : SynthPage)
    (rest : List SynthPage) (more : List JVal) :
    playlistLoop ct itct (playlistResp p (q :: rest) :: more)
      = (p.entries ++ (playlistLoop (.str q.tok) (.str q.itct) more).1,
         NetEvent.ajax ⟨ct, itct, none⟩ ::
          (playlistLoop (.str q.tok) (.str q.itct) more).2.1,
         (playlistLoop (.str q.tok) (.str q.itct) more).2.2) := by
  simp [playlistLoop, playlistResp, playlistVLR, contsOf, nextContObj,
    getKey, getIdx, iterElems, bindOk, bindErr, List.lookup]

/-- `playlistLoop` over a whole chain. -/
theorem playlistLoop_chain (rest : List SynthPage) :
    ∀ (p : SynthPage) (ct itct : JVal),
    playlistLoop ct itct (playlistChain (p :: rest))
      = (pagesEntries (p :: rest), playlistLoopEvents ct itct (p :: rest),
         none) := by
  induction rest with
  | nil =>
    intro p ct itct
    simp [playlistChain, playlistLoop_last, pagesEntries,
      playlistLoopEvents]
  | cons q rest' ih =>
    intro p ct itct
    have hstep := playlistLoop_step ct itct p q rest'
      (playlistChain (q :: rest'))
    rw [show playlistChain (p :: q :: rest')
        = playlistResp p (q :: rest') :: playlistChain (q :: rest') from rfl,
      hstep, ih q (.str q.tok) (.str q.itct)]
    simp [pagesEntries, playlistLoopEvents]

/-- A page load contributes no AJAX fetch. -/
theorem ajaxCount_pageLoad (u : String) (evs : List NetEvent) :
    ajaxCount (.pageLoad u :: evs) = ajaxCount evs := by
  simp [ajaxCount]

/-- A page load contributes no session token. -/
theorem sessionTokens_pageLoad (u : String) (evs : List NetEvent) :
    sessionTokens (.pageLoad u :: evs) = sessionTokens evs := by
  simp [sessionTokens]

/-- `historyLoop` fetches once per page. -/
theorem histLoopEvents_count (rest : List SynthPage) :
    ∀ (p : SynthPage) (xsrf ct itct : JVal),
    ajaxCount (histLoopEvents xsrf ct itct (p :: rest)) = rest.length + 1 := by
  induction rest with
  | nil => intro p xsrf ct itct; rfl
  | cons q rest' ih =>
    intro p xsrf ct itct
    simp [histLoopEvents, ajaxCount] at ih ⊢
    exact ih q (.str p.xsrf) (.str q.tok) (.str q.itct)

/-- `playlistLoop` fetches once per page. -/
theorem playlistLoopEvents_count (rest : List SynthPage) :
    ∀ (p : SynthPage) (ct itct : JVal),
    ajaxCount (playlistLoopEvents ct itct (p :: rest)) = rest.length + 1 := by
  induction rest with
  | nil => intro p ct itct; rfl
  | cons q rest' ih =>
    intro p ct itct
    simp [playlistLoopEvents, ajaxCount] at ih ⊢
    exact ih q (.str q.tok) (.str q.itct)

/-- The session tokens of a history chain's fetches: the first fetch uses
the incoming token; each later fetch uses the token supplied by the
previous page's response (the last response's token is never used). -/
theorem histLoopEvents_tokens (rest : List SynthPage) :
    ∀ (p : SynthPage) (xsrf ct itct : JVal),
    sessionTokens (histLoopEvents xsrf ct itct (p :: rest))
      = some xsrf ::
          ((p :: rest).dropLast.map fun r => some (JVal.str r.xsrf)) := by
  induction rest with
  | nil => intro p xsrf ct itct; rfl
  | cons q rest' ih =>
    intro p xsrf ct itct
    have h := ih q (.str p.xsrf) (.str q.tok) (.str q.itct)
    simp [histLoopEvents, sessionTokens] at h ⊢
    simp [h, List.dropLast]

/-- `get_history_info` over a synthetic chain: concatenated entries, one
fetch per follow-up page, successful termination. -/
theorem get_history_info_chain (p : SynthPage) (rest : List SynthPage)
    (cfg : YtcfgDict) :
    (get_history_info true (histInit p.entries rest) cfg
        (histChain rest)).entries = pagesEntries (p :: rest)
    ∧ ajaxCount (get_history_info true (histInit p.entries rest) cfg
        (histChain rest)).events = rest.length
    ∧ (get_history_info true (histInit p.entries rest) cfg
        (histChain rest)).err = none := by
  cases rest with
  | nil => exact ⟨rfl, rfl, rfl⟩
  | cons q rest' =>
    have hl := historyLoop_chain rest' q (.str cfg.XSRF_TOKEN) (.str q.tok)
      (.str q.itct)
    have hunf : get_history_info true (histInit p.entries (q :: rest')) cfg
        (histChain (q :: rest'))
        = ⟨(p.entries ++ []) ++ (historyLoop (.str cfg.XSRF_TOKEN)
            (.str q.tok) (.str q.itct) (histChain (q :: rest'))).1,
           NetEvent.pageLoad HISTORY_URL :: (historyLoop (.str cfg.XSRF_TOKEN)
            (.str q.tok) (.str q.itct) (histChain (q :: rest'))).2.1,
           (historyLoop (.str cfg.XSRF_TOKEN) (.str q.tok) (.str q.itct)
            (histChain (q :: rest'))).2.2⟩ := rfl
    rw [hunf, hl]
    refine ⟨by simp [pagesEntries], ?_, rfl⟩
    simp [ajaxCount_pageLoad, histLoopEvents_count rest' q]

/-- `get_playlist_info` over a synthetic chain with truthy continuation
parameters. -/
theorem get_playlist_info_chain (p : SynthPage) (rest : List SynthPage)
    (pid : String) (hne : ∀ q ∈ rest, q.tok ≠ "" ∧ q.itct ≠ "") :
    (get_playlist_info true pid (playlistInit p.entries rest)
        (playlistChain rest)).entries = pagesEntries (p :: rest)
    ∧ ajaxCount (get_playlist_info true pid (playlistInit p.entries rest)
        (playlistChain rest)).events = rest.length
    ∧ (get_playlist_info true pid (playlistInit p.entries rest)
        (playlistChain rest)).err = none := by
  cases rest with
  | nil =>
    refine ⟨?_, rfl, rfl⟩
    rw [show pagesEntries [p] = p.entries from by simp [pagesEntries]]
    exact rfl
  | cons q rest' =>
    have h1 : (q.tok == "") = false :=
      beq_eq_false_iff_ne.mpr (hne q (by simp)).1
    have h2 : (q.itct == "") = false :=
      beq_eq_false_iff_ne.mpr (hne q (by simp)).2
    have hgate : (truthy (.str q.tok) && truthy (.str q.itct)) = true := by
      simp [truthy, h1, h2]
    have hunf : get_playlist_info true pid
        (playlistInit p.entries (q :: rest')) (playlistChain (q :: rest'))
        = ((if truthy (.str q.tok) && truthy (.str q.itct) then
            ⟨p.entries ++ (playlistLoop (.str q.tok) (.str q.itct)
              (playlistChain (q :: rest'))).1,
             NetEvent.pageLoad ("https://www.youtube.com/playlist?list="
              ++ pid) :: (playlistLoop (.str q.tok) (.str q.itct)
              (playlistChain (q :: rest'))).2.1,
             (playlistLoop (.str q.tok) (.str q.itct)
              (playlistChain (q :: rest'))).2.2⟩
          else
            ⟨p.entries,
             [NetEvent.pageLoad ("https://www.youtube.com/playlist?list="
              ++ pid)], none⟩ : GenResult)) := rfl
    rw [hunf, hgate]
    have hl := playlistLoop_chain rest' q (.str q.tok) (.str q.itct)
    rw [if_pos rfl, hl]
    refine ⟨by simp [pagesEntries], ?_, rfl⟩
    simp [ajaxCount_pageLoad, playlistLoopEvents_count rest' q]

/-- Claim C1: over a chain of `N = rest.length + 1` synthetic pages where
every page but the last supplies a next-continuation descriptor (with
truthy parameters) and the last supplies none, both `get_history_info` and
`get_playlist_info` yield exactly the concatenation of all pages' entries
in order, perform exactly `N - 1` follow-up AJAX fetches beyond the
initial page, and terminate successfully. -/
theorem C1_cursor_pagination (p : SynthPage) (rest : List SynthPage)
    (cfg : YtcfgDict) (pid : String)
    (hne : ∀ q ∈ rest, q.tok ≠ "" ∧ q.itct ≠ "") :
    ((get_history_info true (histInit p.entries rest) cfg
        (histChain rest)).entries = pagesEntries (p :: rest)
     ∧ ajaxCount (get_history_info true (histInit p.entries rest) cfg
        (histChain rest)).events = rest.length
     ∧ (get_history_info true (histInit p.entries rest) cfg
        (histChain rest)).err = none)
    ∧ ((get_playlist_info true pid (playlistInit p.entries rest)
        (playlistChain rest)).entries = pagesEntries (p :: rest)
     ∧ ajaxCount (get_playlist_info true pid (playlistInit p.entries rest)
        (playlistChain rest)).events = rest.length
     ∧ (get_playlist_info true pid (playlistInit p.entries rest)
        (playlistChain rest)).err = none) :=
  ⟨get_history_info_chain p rest cfg,
   get_playlist_info_chain p rest pid hne⟩

/-- Witness for C1 at a concrete three-page enumeration. -/
theorem C1_witness :
    (∀ q ∈ [(⟨[.str "e2"], "t2", "i2", "x2"⟩ : SynthPage),
            ⟨[.str "e3"], "t3", "i3", "x3"⟩],
      q.tok ≠ "" ∧ q.itct ≠ "")
    ∧ (((get_history_info true
          (histInit [.str "e1"]
            [⟨[.str "e2"], "t2", "i2", "x2"⟩,
             ⟨[.str "e3"], "t3", "i3", "x3"⟩]) cfgA
          (histChain [⟨[.str "e2"], "t2", "i2", "x2"⟩,
             ⟨[.str "e3"], "t3", "i3", "x3"⟩])).entries
        = pagesEntries [⟨[.str "e1"], "", "", ""⟩,
            ⟨[.str "e2"], "t2", "i2", "x2"⟩,
            ⟨[.str "e3"], "t3", "i3", "x3"⟩]
      ∧ ajaxCount (get_history_info true
          (histInit [.str "e1"]
            [⟨[.str "e2"], "t2", "i2", "x2"⟩,
             ⟨[.str "e3"], "t3", "i3", "x3"⟩]) cfgA
          (histChain [⟨[.str "e2"], "t2", "i2", "x2"⟩,
             ⟨[.str "e3"], "t3", "i3", "x3"⟩])).events = 2
      ∧ (get_history_info true
          (histInit [.str "e1"]
            [⟨[.str "e2"], "t2", "i2", "x2"⟩,
             ⟨[.str "e3"], "t3", "i3", "x3"⟩]) cfgA
          (histChain [⟨[.str "e2"], "t2", "i2", "x2"⟩,
             ⟨[.str "e3"], "t3", "i3", "x3"⟩])).err = none)
    ∧ ((get_playlist_info true "PL"
          (playlistInit [.str "e1"]
            [⟨[.str "e2"], "t2", "i2", "x2"⟩,
             ⟨[.str "e3"], "t3", "i3", "x3"⟩])
          (playlistChain [⟨[.str "e2"], "t2", "i2", "x2"⟩,
             ⟨[.str "e3"], "t3", "i3", "x3"⟩])).entries
        = pagesEntries [⟨[.str "e1"], "", "", ""⟩,
            ⟨[.str "e2"], "t2", "i2", "x2"⟩,
            ⟨[.str "e3"], "t3", "i3", "x3"⟩]
      ∧ ajaxCount (get_playlist_info true "PL"
          (playlistInit [.str "e1"]
            [⟨[.str "e2"], "t2", "i2", "x2"⟩,
             ⟨[.str "e3"], "t3", "i3", "x3"⟩])
          (playlistChain [⟨[.str "e2"], "t2", "i2", "x2"⟩,
             ⟨[.str "e3"], "t3", "i3", "x3"⟩])).events = 2
      ∧ (get_playlist_info true "PL"
          (playlistInit [.str "e1"]
            [⟨[.str "e2"], "t2", "i2", "x2"⟩,
             ⟨[.str "e3"], "t3", "i3", "x3"⟩])
          (playlistChain [⟨[.str "e2"], "t2", "i2", "x2"⟩,
             ⟨[.str "e3"], "t3", "i3", "x3"⟩])).err = none)) :=
  ⟨by decide,
   C1_cursor_pagination ⟨[.str "e1"], "", "", ""⟩
     [⟨[.str "e2"], "t2", "i2", "x2"⟩, ⟨[.str "e3"], "t3", "i3", "x3"⟩]
     cfgA "PL" (by decide)⟩

/-- A chain has one response per page. -/
theorem sectChain_length (key : String) (ps : List SynthPage) :
    (sectChain key ps).length = ps.length := by
  induction ps with
  | nil => rfl
  | cons p rest ih => simp [sectChain, ih]

/-- The `while has_continuations` loop over a whole chain: it emits every
page's mapped entries in order, fetches once per page always posting the
same initial token, and terminates successfully.  The fuel must exceed the
number of pages. -/
theorem contHistWhile_chain (key : String) (f : JVal → JVal) (xsrf : String) :
    ∀ (rest : List SynthPage) (q : SynthPage) (apis : List JVal) (fuel : Nat),
    rest.length + 1 < fuel →
    contHistWhile key f xsrf fuel (sectISR key apis (q :: rest)) true
        (sectChain key (q :: rest))
      = (sectPagesEntries f (q :: rest), sectEvents xsrf (q :: rest),
         none) := by
  intro rest
  induction rest with
  | nil =>
    intro q apis fuel hf
    obtain ⟨m, rfl⟩ : ∃ m, fuel = m + 2 := ⟨fuel - 2, by omega⟩
    simp [contHistWhile, contHistFor, sectISR, contsOf, nextContObj,
      sectChain, sectResp, getKey, getIdx, iterElems, bindOk, bindErr,
      List.lookup, emitMapped_wrap, hasKeyB, truthyOpt, truthy,
      sectPagesEntries, sectEvents]
  | cons q' rest' ih =>
    intro q apis fuel hf
    obtain ⟨m, rfl⟩ : ∃ m, fuel = m + 1 := ⟨fuel - 1, by omega⟩
    have hm : rest'.length + 1 < m := by
      simpa using Nat.lt_of_succ_lt_succ hf
    have hrec := ih q' q.entries m hm
    simp [contHistWhile, contHistFor, sectISR, contsOf, nextContObj,
      sectChain, sectResp, getKey, getIdx, iterElems, bindOk, bindErr,
      List.lookup, emitMapped_wrap, hasKeyB, truthyOpt, truthy] at hrec ⊢
    simp [hrec, sectPagesEntries, sectEvents]

/-- The shared cursor body over a synthetic chain: first page emitted, then
the loop's pages, all fetches posting the initial token. -/
theorem contHistBody_chain (key : String) (f : JVal → JVal) (url : String)
    (apis : List JVal) (q : SynthPage) (rest : List SynthPage)
    (cfg : YtcfgDict) :
    contHistBody key f url false (sectInit key apis (q :: rest)) cfg
        (sectChain key (q :: rest))
      = ⟨apis.map f ++ sectPagesEntries f (q :: rest),
         NetEvent.pageLoad url :: sectEvents cfg.XSRF_TOKEN (q :: rest),
         none⟩ := by
  have hpath : at_path ITEM_SECTION_PATH (sectInit key apis (q :: rest))
      = .ok (sectISR key apis (q :: rest)) := rfl
  have hw := contHistWhile_chain key f cfg.XSRF_TOKEN rest q apis
    ((sectChain key (q :: rest)).length + 1) (by simp [sectChain_length])
  simp [contHistBody, hpath, sectISR, contsOf, nextContObj, getKey,
    iterElems, bindOk, bindErr, List.lookup, emitMapped_wrap, hasKeyB,
    truthyOpt, truthy, sectChain_length] at hw ⊢
  simp [hw]

/-- The session tokens of the live-chat/comment fetches are all the
initial token. -/
theorem sessionTokens_sectEvents (xsrf : String) (ps : List SynthPage) :
    sessionTokens (sectEvents xsrf ps)
      = ps.map fun _ => some (JVal.str xsrf) := by
  induction ps with
  | nil => rfl
  | cons p rest ih =>
    simp [sectEvents, sessionTokens] at ih ⊢
    simp [ih]

/-- Claim C2 (amended): over chains with at least one follow-up page,
`get_history_info` posts the initial config token on its first fetch and
each response's freshly supplied token on every later fetch (never a stale
one), while the comment/community cursor posts the initial config token on
every fetch even though each response supplies a rotated token. -/
theorem C2_amended_token_rotation (p q : SynthPage) (rest : List SynthPage)
    (cfg : YtcfgDict) (g : JVal → String → JVal) :
    sessionTokens (get_history_info true (histInit p.entries (q :: rest))
        cfg (histChain (q :: rest))).events
      = some (.str cfg.XSRF_TOKEN) ::
          ((q :: rest).dropLast.map fun r => some (JVal.str r.xsrf))
    ∧ sessionTokens (comment_community_history true false g
        COMMENT_HISTORY_URL
        (sectInit "commentHistoryEntryRenderer" p.entries (q :: rest)) cfg
        (sectChain "commentHistoryEntryRenderer" (q :: rest))).events
      = (q :: rest).map fun _ => some (JVal.str cfg.XSRF_TOKEN) := by
  constructor
  · have hl := historyLoop_chain rest q (.str cfg.XSRF_TOKEN) (.str q.tok)
      (.str q.itct)
    have hunf : (get_history_info true (histInit p.entries (q :: rest)) cfg
        (histChain (q :: rest))).events
        = NetEvent.pageLoad HISTORY_URL ::
          (historyLoop (.str cfg.XSRF_TOKEN) (.str q.tok) (.str q.itct)
            (histChain (q :: rest))).2.1 := rfl
    rw [hunf, hl]
    simp [sessionTokens_pageLoad, histLoopEvents_tokens rest q]
  · have hb := contHistBody_chain "commentHistoryEntryRenderer"
      (fun api => g api (deleteActionPathFor COMMENT_HISTORY_URL))
      COMMENT_HISTORY_URL p.entries q rest cfg
    have hunf : comment_community_history true false g COMMENT_HISTORY_URL
        (sectInit "commentHistoryEntryRenderer" p.entries (q :: rest)) cfg
        (sectChain "commentHistoryEntryRenderer" (q :: rest))
        = contHistBody "commentHistoryEntryRenderer"
          (fun api => g api (deleteActionPathFor COMMENT_HISTORY_URL))
          COMMENT_HISTORY_URL false
          (sectInit "commentHistoryEntryRenderer" p.entries (q :: rest)) cfg
          (sectChain "commentHistoryEntryRenderer" (q :: rest)) := rfl
    rw [hunf, hb]
    simp [sessionTokens_pageLoad, sessionTokens_sectEvents]
